import Mathlib

/-!
Verification development for the constant-expression evaluator
(`src/types/eval_const.ts`).

The TypeScript module evaluates constant expressions of a Solidity AST to
concrete values.  Its numeric workhorse is the decimal.js `Decimal` class,
configured once at module load with `Decimal.set({ precision: 100 })`
(100 significant digits, default rounding ROUND_HALF_UP).  We embed:

* `Dec` — the decimal.js value space: finite decimals in canonical
  scientific form `m × 10^e` (mantissa not divisible by 10), plus the
  special values `±Infinity` and `NaN` that decimal.js produces for
  division/modulo by zero;
* `Value` — the evaluator's `Value = Decimal | boolean | string | bigint`;
* `Err` — the error model: `EvalError` (with its `NonConstantExpressionError`
  subclass distinguished by a flag, and the optional `expr` slot mutated by
  the catch handlers) and the plain JavaScript `Error` thrown by
  `promoteToDec`;
* `Expression` — the AST shapes the evaluator inspects, and the recursive
  functions `isConstant`, `evalLiteralImpl`, `evalUnaryImpl`,
  `evalBinaryImpl`, `evalLiteral`, `evalUnary`, `evalBinary`,
  `evalConstantExpr`, translated clause by clause from the source.
-/

/-- decimal.js precision configured at module load:
`Decimal.set({ precision: 100 })`. -/
def PRECISION : Nat := 100

/-- Number of base-10 digits of `n` (`1` for `0`). -/
def digitsLen (n : Nat) : Nat :=
  if n < 10 then 1 else digitsLen (n / 10) + 1
decreasing_by exact Nat.div_lt_self (by omega) (by omega)

/-- Strip all factors of 10 from `n`, returning the stripped number and the
count of stripped factors (`stripTens 0 = (0, 0)`). -/
def stripTens (n : Nat) : Nat × Nat :=
  if n ≠ 0 ∧ n % 10 = 0 then
    let r := stripTens (n / 10)
    (r.1, r.2 + 1)
  else
    (n, 0)
decreasing_by exact Nat.div_lt_self (by omega) (by omega)

/-- The decimal.js value space: finite values `m × 10^e` (kept canonical:
`m = 0 → e = 0`, and `10 ∤ m` for `m ≠ 0`), positive/negative infinity and
NaN.  decimal.js stores finite values as a sign, a digit array and an
exponent without trailing zero digits, so canonical scientific form is a
faithful value-level rendering and structural equality coincides with
numeric equality. -/
inductive Dec where
  | fin (m : Int) (e : Int)
  | inf (positive : Bool)
  | nan
deriving DecidableEq, Repr

namespace Dec

/-- Canonicalize `m × 10^e`: move trailing zeros of the mantissa into the
exponent; `0` is represented as `fin 0 0`. -/
def normFin (m : Int) (e : Int) : Dec :=
  if m = 0 then .fin 0 0
  else
    let s := stripTens m.natAbs
    .fin (if m < 0 then -(s.1 : Int) else (s.1 : Int)) (e + s.2)

/-- `Decimal.prototype.isInteger`: a finite value with no fractional part.
On canonical representations this is exactly `0 ≤ e`. -/
def isInt : Dec → Bool
  | .fin _ e => 0 ≤ e
  | _ => false

/-- The integer denoted by an integral finite decimal
(`BigInt(d.toFixed())` in the source).  Junk elsewhere (never used there). -/
def toIntVal : Dec → Int
  | .fin m e => m * (10 : Int) ^ e.toNat
  | _ => 0

/-- Round the exact value `m × 10^e` to `PRECISION` significant digits with
ROUND_HALF_UP (decimal.js's default rounding), the rounding decimal.js
applies to every arithmetic result. -/
def round100 (m : Int) (e : Int) : Dec :=
  if m = 0 then .fin 0 0
  else
    let a := m.natAbs
    let L := digitsLen a
    if L ≤ PRECISION then normFin m e
    else
      let k := L - PRECISION
      let q := (a + 5 * 10 ^ (k - 1)) / 10 ^ k
      normFin (if m < 0 then -(q : Int) else (q : Int)) (e + k)

/-- `Decimal.prototype.negated`. -/
def negated : Dec → Dec
  | .fin m e => .fin (-m) e
  | .inf p => .inf !p
  | .nan => .nan

/-- Align two finite decimals on a common exponent: for
`m₁ × 10^e₁` and `m₂ × 10^e₂` return `(M₁, M₂, E)` with `E = min e₁ e₂`
and `Mᵢ × 10^E` equal to the original values. -/
def align (m1 e1 m2 e2 : Int) : Int × Int × Int :=
  let E := min e1 e2
  (m1 * (10 : Int) ^ (e1 - E).toNat, m2 * (10 : Int) ^ (e2 - E).toNat, E)

/-- `Decimal.prototype.plus`: exact sum rounded to `PRECISION` significant
digits; decimal.js special-value semantics for ±Infinity and NaN. -/
def plus : Dec → Dec → Dec
  | .nan, _ => .nan
  | _, .nan => .nan
  | .inf p, .inf q => if p = q then .inf p else .nan
  | .inf p, .fin _ _ => .inf p
  | .fin _ _, .inf q => .inf q
  | .fin m1 e1, .fin m2 e2 =>
    let a := align m1 e1 m2 e2
    round100 (a.1 + a.2.1) a.2.2

/-- `Decimal.prototype.minus`. -/
def minus (x y : Dec) : Dec := plus x (negated y)

/-- `Decimal.prototype.times`: exact product rounded to `PRECISION`
significant digits; `0 × ∞ = NaN` as in decimal.js. -/
def times : Dec → Dec → Dec
  | .nan, _ => .nan
  | _, .nan => .nan
  | .inf p, .inf q => .inf (p = q)
  | .inf p, .fin m _ => if m = 0 then .nan else .inf (p = (0 < m))
  | .fin m _, .inf q => if m = 0 then .nan else .inf (q = (0 < m))
  | .fin m1 e1, .fin m2 e2 => round100 (m1 * m2) (e1 + e2)

/-- `Decimal.prototype.dividedBy` for finite, nonzero divisor: the exact
quotient `a/b × 10^(e1-e2)` correctly rounded to `PRECISION` significant
digits (ROUND_HALF_UP).  We compute one guard digit past the precision by
integer division and round on it; the dropped fraction can only push the
half-way comparison upward, which ROUND_HALF_UP rounds up anyway, so
rounding on `2·dropped ≥ 10^k` is exact. -/
def divFin (m1 e1 m2 e2 : Int) : Dec :=
  if m1 = 0 then .fin 0 0
  else
    let a := m1.natAbs
    let b := m2.natAbs
    let d : Int := (digitsLen a : Int) - (digitsLen b : Int)
    let s : Int := (PRECISION : Int) + 1 - d
    let num := a * 10 ^ s.toNat
    let den := b * 10 ^ (-s).toNat
    let Q := num / den
    let L := digitsLen Q
    let k := L - PRECISION
    let M := (Q + 5 * 10 ^ (k - 1)) / 10 ^ k
    let pos := (0 < m1) = (0 < m2)
    normFin (if pos then (M : Int) else -(M : Int)) (e1 - e2 - s + k)

/-- `Decimal.prototype.dividedBy`: decimal.js returns ±Infinity when a
nonzero value is divided by zero and NaN for `0/0` (no exception). -/
def div : Dec → Dec → Dec
  | .nan, _ => .nan
  | _, .nan => .nan
  | .inf _, .inf _ => .nan
  | .inf p, .fin m _ => .inf (p = (0 ≤ m))
  | .fin _ _, .inf _ => .fin 0 0
  | .fin m1 e1, .fin m2 e2 =>
    if m2 = 0 then
      if m1 = 0 then .nan else .inf (0 < m1)
    else divFin m1 e1 m2 e2

/-- `Decimal.prototype.modulo`: remainder of truncating division (decimal.js
default `modulo` mode ROUND_DOWN, so the result takes the dividend's sign),
rounded to `PRECISION` significant digits; NaN when the divisor is zero or
either operand is non-finite (as in decimal.js). -/
def modulo : Dec → Dec → Dec
  | .nan, _ => .nan
  | _, .nan => .nan
  | .inf _, _ => .nan
  | .fin m e, .inf _ => .fin m e
  | .fin m1 e1, .fin m2 e2 =>
    if m2 = 0 then .nan
    else
      let a := align m1 e1 m2 e2
      round100 (a.1 - Int.tdiv a.1 a.2.1 * a.2.1) a.2.2

/-- Exact integer power `b^n` of a finite decimal (no rounding): used as
the exact value that `Decimal.prototype.pow` rounds. -/
def powFinNat (m e : Int) (n : Nat) : Dec := round100 (m ^ n) (e * n)

/-- `Decimal.prototype.pow`.  decimal.js computes the correctly rounded
power.  We model the integer-exponent cases: `b^n` rounded to `PRECISION`
significant digits for `n ≥ 0`, and `1 / b^(-n)` for negative `n`.  For a
non-integral or non-finite exponent decimal.js approximates the
transcendental `exp(y·ln x)` (NaN for a negative base); that branch is not
reached by any theorem below and is modelled as NaN. -/
def pow (x y : Dec) : Dec :=
  match x, y with
  | .nan, _ => .nan
  | _, .nan => .nan
  | .fin m e, .fin m2 e2 =>
    if 0 ≤ e2 then
      let n := (m2 * (10 : Int) ^ e2.toNat)
      if 0 ≤ n then powFinNat m e n.toNat
      else div (.fin 1 0) (powFinNat m e (-n).toNat)
    else .nan
  | _, _ => .nan

/-- Numeric comparison of two decimals: `none` when either side is NaN (all
of decimal.js's `lessThan`/`greaterThan`/… return `false` on NaN). -/
def cmp : Dec → Dec → Option Ordering
  | .nan, _ => none
  | _, .nan => none
  | .inf p, .inf q =>
    some (if p = q then .eq else if p then .gt else .lt)
  | .inf p, .fin _ _ => some (if p then .gt else .lt)
  | .fin _ _, .inf q => some (if q then .lt else .gt)
  | .fin m1 e1, .fin m2 e2 =>
    let a := align m1 e1 m2 e2
    some (compare a.1 a.2.1)

/-- `Decimal.prototype.lessThan`. -/
def lessThan (x y : Dec) : Bool := cmp x y = some .lt

/-- `Decimal.prototype.lessThanOrEqualTo`. -/
def lessThanOrEqualTo (x y : Dec) : Bool :=
  cmp x y = some .lt ∨ cmp x y = some .eq

/-- `Decimal.prototype.greaterThan`. -/
def greaterThan (x y : Dec) : Bool := cmp x y = some .gt

/-- `Decimal.prototype.greaterThanOrEqualTo`. -/
def greaterThanOrEqualTo (x y : Dec) : Bool :=
  cmp x y = some .gt ∨ cmp x y = some .eq

/-- `Decimal.prototype.equals`: numeric equality, `false` whenever either
side is NaN. -/
def equals (x y : Dec) : Bool := cmp x y = some .eq

/-- `Decimal.prototype.toString`, modelled abstractly: only used to build
error-message text, which no claim inspects beyond the carrying error's
kind. -/
def toStr : Dec → String
  | .fin m e => toString m ++ "e" ++ toString e
  | .inf p => if p then "Infinity" else "-Infinity"
  | .nan => "NaN"

end Dec

/-- Value of a character as a digit in base `b` (decimal.js accepts upper
and lower case letters in hexadecimal strings). -/
def digitVal (b : Nat) (c : Char) : Option Nat :=
  let v :=
    if '0' ≤ c ∧ c ≤ '9' then some (c.toNat - '0'.toNat)
    else if 'a' ≤ c ∧ c ≤ 'f' then some (c.toNat - 'a'.toNat + 10)
    else if 'A' ≤ c ∧ c ≤ 'F' then some (c.toNat - 'A'.toNat + 10)
    else none
  match v with
  | some d => if d < b then some d else none
  | none => none

/-- Parse a nonempty digit string in base `b` (most significant first). -/
def parseDigits (b : Nat) : List Char → Nat → Option Nat
  | [], acc => some acc
  | c :: rest, acc =>
    match digitVal b c with
    | some d => parseDigits b rest (acc * b + d)
    | none => none

/-- Parse an optionally signed nonempty decimal digit string (an exponent
suffix). -/
def parseSignedNat (cs : List Char) : Option Int :=
  match cs with
  | '+' :: rest => if rest = [] then none else (parseDigits 10 rest 0).map Int.ofNat
  | '-' :: rest =>
    if rest = [] then none else (parseDigits 10 rest 0).map (fun n => -(n : Int))
  | [] => none
  | _ => (parseDigits 10 cs 0).map Int.ofNat

/-- Parse the unsigned part of a decimal.js numeric string:
`digits[.digits][(e|E)[+-]digits]` with at least one digit in the mantissa,
or a `0x`/`0b`/`0o` radix-prefixed integer.  decimal.js additionally
accepts fractional radix forms with a binary `p` exponent, which Solidity
literals never use; those are not modelled and parse as `none`. -/
def parseUnsigned (cs : List Char) (negative : Bool) : Option Dec :=
  match cs with
  | '0' :: 'x' :: rest =>
    if rest = [] then none
    else (parseDigits 16 rest 0).map fun n =>
      Dec.normFin (if negative then -(n : Int) else (n : Int)) 0
  | '0' :: 'X' :: rest =>
    if rest = [] then none
    else (parseDigits 16 rest 0).map fun n =>
      Dec.normFin (if negative then -(n : Int) else (n : Int)) 0
  | '0' :: 'b' :: rest =>
    if rest = [] then none
    else (parseDigits 2 rest 0).map fun n =>
      Dec.normFin (if negative then -(n : Int) else (n : Int)) 0
  | '0' :: 'o' :: rest =>
    if rest = [] then none
    else (parseDigits 8 rest 0).map fun n =>
      Dec.normFin (if negative then -(n : Int) else (n : Int)) 0
  | _ =>
    let mantRest := cs.span (fun c => c != 'e' && c != 'E')
    let expPart : Option Int :=
      match mantRest.2 with
      | [] => some 0
      | _ :: es => parseSignedNat es
    match expPart with
    | none => none
    | some ex =>
      let ipRest := mantRest.1.span (fun c => c != '.')
      let ip := ipRest.1
      let fp := match ipRest.2 with
        | [] => some ([] : List Char)
        | _ :: f => if f.all (fun c => c != '.') then some f else none
      match fp with
      | none => none
      | some f =>
        if ip = [] ∧ f = [] then none
        else
          match parseDigits 10 ip 0, parseDigits 10 f 0 with
          | some i, some fr =>
            let m : Nat := i * 10 ^ f.length + fr
            some (Dec.normFin (if negative then -(m : Int) else (m : Int))
              (ex - f.length))
          | _, _ => none

/-- The decimal.js string constructor `new Decimal(s)`: exact (the
constructor does not round to precision), accepting an optional sign,
`Infinity`/`NaN`, decimal scientific notation and radix-prefixed integers.
`none` models the `[DecimalError] Invalid argument` exception thrown on any
other string. -/
def parseDec (s : String) : Option Dec :=
  let core : List Char → Bool → Option Dec := fun cs neg =>
    if cs = "Infinity".data then some (.inf !neg)
    else if cs = "NaN".data then some .nan
    else parseUnsigned cs neg
  match s.data with
  | '+' :: rest => core rest false
  | '-' :: rest => core rest true
  | cs => core cs false

/-- `value.replaceAll("_", "")` applied before numeric parsing. -/
def stripUnderscores (s : String) : String := ⟨s.data.filter (fun c => c != '_')⟩

mutual
/-- The AST shapes inspected by the evaluator (`Literal`, `UnaryOperation`,
`BinaryOperation`, `TupleExpression`, `Conditional`, `Identifier`,
`FunctionCall`), with exactly the fields the evaluator reads (spec §6).
`literal.kind` and `literal.subdenomination` carry the string value of the
`LiteralKind` / `TimeUnit` / `EtherUnit` string enums, as TypeScript string
enums are strings at runtime and the source compares them with `===`.
`otherExpression` stands for every other AST node shape (all `instanceof`
tests fail on it).  A tuple's `vOriginalComponents` may contain `null`
entries, hence `Option`. -/
inductive Expression where
  | literal (kind : String) (value : String) (hexValue : String)
      (subdenomination : Option String)
  | unaryOperation (operator : String) (vSubExpression : Expression)
  | binaryOperation (operator : String) (vLeftExpression : Expression)
      (vRightExpression : Expression)
  | tupleExpression (isInlineArray : Bool)
      (vOriginalComponents : List (Option Expression))
  | conditional (vCondition : Expression) (vTrueExpression : Expression)
      (vFalseExpression : Expression)
  | identifier (vReferencedDeclaration : Option Declaration)
  | functionCall (kind : String) (vArguments : List Expression)
  | otherExpression

/-- Declarations reachable through `Identifier.vReferencedDeclaration`:
the evaluator only distinguishes `VariableDeclaration` (with its `constant`
flag and optional initializer `vValue`) from every other declaration kind. -/
inductive Declaration where
  | variableDeclaration (constant : Bool) (vValue : Option Expression)
  | otherDeclaration
end

/-- `FunctionCallKind.TypeConversion` (string enum value). -/
def TypeConversionKind : String := "typeConversion"

/-- The error model.  `evalErr nonConst msg expr` is a thrown `EvalError`
instance: `nonConst` marks the `NonConstantExpressionError` subclass, and
`expr` is the mutable optional `expr` field (`none` = `undefined`).
`jsErr` is a plain JavaScript `Error` — `promoteToDec` throws one via
`throw new Error(...)`, and the decimal.js constructor throws one on an
unparsable string; a plain `Error` is not `instanceof EvalError`, so the
catch handlers leave it untouched. -/
inductive Err where
  | evalErr (nonConst : Bool) (msg : String) (expr : Option Expression)
  | jsErr (msg : String)

/-- `pp` from `../misc`.  Modelled from the spec: pretty-printing of
expressions for error messages is an external collaborator, out of scope
(§1); it is modelled as an abstract constant, as no claim inspects message
text beyond the error's kind. -/
def pp (_e : Expression) : String := "<expression>"

/-- The `Value = Decimal | boolean | string | bigint` union. -/
inductive Value where
  | decimal (d : Dec)
  | boolean (b : Bool)
  | string (s : String)
  | integer (i : Int)

/-- JavaScript template-literal rendering `${v}` of a `Value`, used in the
message of the plain `Error` thrown by `promoteToDec`. -/
def jsTemplate : Value → String
  | .decimal d => d.toStr
  | .boolean b => if b then "true" else "false"
  | .string s => s
  | .integer i => toString i

/-- The `str` helper: `value instanceof Decimal ? value.toString() :
pp(value)` (the `pp` overload on values renders them; modelled like the
template rendering). -/
def str (value : Value) : String :=
  match value with
  | .decimal d => d.toStr
  | v => jsTemplate v

/-- `promoteToDec`: rejects non-numeric values with a **plain** `Error`
(`throw new Error(...)`, not `EvalError`), and converts a bigint via
`new Decimal(v.toString())` (exact). -/
def promoteToDec (v : Value) : Except Err Dec :=
  match v with
  | .decimal d => .ok d
  | .integer i => .ok (Dec.normFin i 0)
  | v => .error (.jsErr ("Expected number not " ++ jsTemplate v))

/-- `demoteFromDec`: `d.isInt() ? BigInt(d.toFixed()) : d`. -/
def demoteFromDec (d : Dec) : Value :=
  if d.isInt then .integer d.toIntVal else .decimal d

/-- `SUBDENOMINATION_MULTIPLIERS` from `./utils`.  Modelled from the spec:
the map itself lives outside the packaged source (`src/` holds only
`eval_const.ts`); spec §4.3 names the time units seconds/minutes/hours/days/
weeks (minutes ↦ 60, §8 scenario 2) and the wei/gwei/ether currency
multipliers.  Each multiplier is an integral `Decimal`. -/
def SUBDENOMINATION_MULTIPLIERS (u : String) : Option Dec :=
  if u = "seconds" then some (.fin 1 0)
  else if u = "minutes" then some (.fin 6 1)
  else if u = "hours" then some (.fin 36 2)
  else if u = "days" then some (.fin 864 2)
  else if u = "weeks" then some (.fin 6048 2)
  else if u = "wei" then some (.fin 1 0)
  else if u = "gwei" then some (.fin 1 9)
  else if u = "ether" then some (.fin 1 18)
  else none

/-- `BINARY_OPERATOR_GROUPS` from `./utils`.  Modelled from the spec:
the constant lives outside the packaged source; spec §4.4 fixes the five
groups and their exact members. -/
structure OperatorGroups where
  Logical : List String
  Equality : List String
  Comparison : List String
  Arithmetic : List String
  Bitwise : List String

/-- The binary operator partition of spec §4.4. -/
def BINARY_OPERATOR_GROUPS : OperatorGroups :=
  { Logical := ["&&", "||"]
    Equality := ["==", "!="]
    Comparison := ["<", "<=", ">", ">="]
    Arithmetic := ["+", "-", "*", "/", "%", "**"]
    Bitwise := ["<<", ">>", "|", "&", "^"] }

/-- `isConstant(expr)` — clause-by-clause translation of the source's
sequence of early-return `if` statements (the conditions are disjoint by
shape, so a match renders the same function).  The final `return false`
covers every unmatched shape, including an `Identifier` whose declaration
is not a constant `VariableDeclaration` with an initializer and a
`FunctionCall` with no arguments (`isConstant(expr.vArguments[0])` on
`undefined` is `false`: every `instanceof` test fails). -/
def isConstant (expr : Expression) : Bool :=
  match expr with
  | .literal .. => true
  | .unaryOperation _ sub => isConstant sub
  | .binaryOperation _ l r => isConstant l && isConstant r
  | .tupleExpression isInlineArray comps =>
    match comps with
    | [some c] => !isInlineArray && isConstant c
    | _ => false
  | .conditional c t f => isConstant c && isConstant t && isConstant f
  | .identifier (some (.variableDeclaration constant (some v))) =>
    constant && isConstant v
  | .identifier _ => false
  | .functionCall kind args =>
    kind == TypeConversionKind &&
      (match args with
       | a :: _ => isConstant a
       | [] => false)
  | .otherExpression => false

/-- `evalLiteralImpl(kind, value, subdenomination)`.  The `LiteralKind`
string-enum values are `"bool"`, `"string"`, `"unicodeString"`,
`"hexString"`, `"number"`.  An unparsable number string makes the decimal.js
constructor throw a plain (non-`EvalError`) exception. -/
def evalLiteralImpl (kind : String) (value : String)
    (subdenomination : Option String) : Except Err Value :=
  if kind == "bool" then
    .ok (.boolean (value == "true"))
  else if kind == "string" || kind == "unicodeString" || kind == "hexString" then
    .ok (.string value)
  else if kind == "number" then
    match parseDec (stripUnderscores value) with
    | none => .error (.jsErr "[DecimalError] Invalid argument")
    | some dec =>
      let val : Value := if dec.isInt then .integer dec.toIntVal else .decimal dec
      match subdenomination with
      | some u =>
        match SUBDENOMINATION_MULTIPLIERS u with
        | none => .error (.evalErr false ("Unknown denomination " ++ u) none)
        | some multiplier =>
          match val with
          | .decimal d => .ok (demoteFromDec (d.times multiplier))
          | _ => .ok (.integer (dec.toIntVal * multiplier.toIntVal))
      | none => .ok val
  else
    .error (.evalErr false ("Unsupported literal kind \"" ++ kind ++ "\"") none)

/-- `evalUnaryImpl(operator, value)`. -/
def evalUnaryImpl (operator : String) (value : Value) : Except Err Value :=
  if operator == "!" then
    match value with
    | .boolean b => .ok (.boolean !b)
    | v => .error (.evalErr false ("Expected " ++ str v ++ " to be boolean") none)
  else if operator == "~" then
    match value with
    | .integer i => .ok (.integer (-(i + 1)))
    | v => .error (.evalErr false ("Expected " ++ str v ++ " to be a bigint") none)
  else if operator == "+" then
    match value with
    | .decimal d => .ok (.decimal d)
    | .integer i => .ok (.integer i)
    | v =>
      .error (.evalErr false
        ("Expected " ++ str v ++ " to be a bigint or a decimal") none)
  else if operator == "-" then
    match value with
    | .decimal d => .ok (.decimal d.negated)
    | .integer i => .ok (.integer (-i))
    | v =>
      .error (.evalErr false
        ("Expected " ++ str v ++ " to be a bigint or a decimal") none)
  else
    .error (.evalErr false
      ("Unable to process " ++ operator ++ str value) none)

/-- JavaScript `===` on two `Value`s, for the operand pairs that reach it in
the equality branch (neither operand a string, not both `Decimal`): value
equality on same-typed bigints/booleans, `false` across types.  Two
`Decimal` operands never reach it (the branch above uses `.equals`); for
completeness it is reference equality there, which distinct evaluation
results never satisfy, hence `false`. -/
def strictEq : Value → Value → Bool
  | .integer a, .integer b => a == b
  | .boolean a, .boolean b => a == b
  | .string a, .string b => a == b
  | _, _ => false

/-- ECMAScript `BigInt::leftShift(x, y)`: `x × 2^y` rounded down (toward
negative infinity); a negative shift count shifts in the opposite
direction, it does not throw. -/
def bigintShiftLeft (x y : Int) : Int :=
  if 0 ≤ y then x * 2 ^ y.toNat else Int.fdiv x (2 ^ (-y).toNat)

/-- ECMAScript `BigInt::signedRightShift(x, y) = leftShift(x, -y)`. -/
def bigintShiftRight (x y : Int) : Int := bigintShiftLeft x (-y)

/-- The `res` computation of the source's arithmetic branch: the if/else
chain over `"+" "-" "*" "/" "%" "**"` with the trailing
`Unknown arithmetic operator` throw. -/
def arithRes (operator : String) (leftDec rightDec : Dec) : Except Err Dec :=
  if operator == "+" then .ok (leftDec.plus rightDec)
  else if operator == "-" then .ok (leftDec.minus rightDec)
  else if operator == "*" then .ok (leftDec.times rightDec)
  else if operator == "/" then .ok (leftDec.div rightDec)
  else if operator == "%" then .ok (leftDec.modulo rightDec)
  else if operator == "**" then .ok (leftDec.pow rightDec)
  else .error (.evalErr false ("Unknown arithmetic operator " ++ operator) none)

/-- `evalBinaryImpl(operator, left, right)`: dispatch on the operator's
group, then on the operator. -/
def evalBinaryImpl (operator : String) (left right : Value) :
    Except Err Value :=
  if BINARY_OPERATOR_GROUPS.Logical.contains operator then
    match left, right with
    | .boolean l, .boolean r =>
      if operator == "&&" then .ok (.boolean (l && r))
      else if operator == "||" then .ok (.boolean (l || r))
      else .error (.evalErr false ("Unknown logical operator " ++ operator) none)
    | l, r =>
      .error (.evalErr false
        (operator ++ " expects booleans not " ++ str l ++ " and " ++ str r) none)
  else if BINARY_OPERATOR_GROUPS.Equality.contains operator then
    match left, right with
    | .string l, r =>
      .error (.evalErr false
        (operator ++ " not allowed for strings " ++ l ++ " and " ++ str r) none)
    | l, .string r =>
      .error (.evalErr false
        (operator ++ " not allowed for strings " ++ str l ++ " and " ++ r) none)
    | l, r =>
      let isEqual : Bool :=
        match l, r with
        | .decimal a, .decimal b => a.equals b
        | _, _ => strictEq l r
      if operator == "==" then .ok (.boolean isEqual)
      else if operator == "!=" then .ok (.boolean !isEqual)
      else .error (.evalErr false ("Unknown equality operator " ++ operator) none)
  else if BINARY_OPERATOR_GROUPS.Comparison.contains operator then
    promoteToDec left >>= fun leftDec =>
    promoteToDec right >>= fun rightDec =>
    if operator == "<" then .ok (.boolean (leftDec.lessThan rightDec))
    else if operator == "<=" then
      .ok (.boolean (leftDec.lessThanOrEqualTo rightDec))
    else if operator == ">" then .ok (.boolean (leftDec.greaterThan rightDec))
    else if operator == ">=" then
      .ok (.boolean (leftDec.greaterThanOrEqualTo rightDec))
    else .error (.evalErr false ("Unknown comparison operator " ++ operator) none)
  else if BINARY_OPERATOR_GROUPS.Arithmetic.contains operator then
    promoteToDec left >>= fun leftDec =>
    promoteToDec right >>= fun rightDec =>
    arithRes operator leftDec rightDec >>= fun res =>
    .ok (demoteFromDec res)
  else if BINARY_OPERATOR_GROUPS.Bitwise.contains operator then
    match left, right with
    | .integer l, .integer r =>
      if operator == "<<" then .ok (.integer (bigintShiftLeft l r))
      else if operator == ">>" then .ok (.integer (bigintShiftRight l r))
      else if operator == "|" then .ok (.integer (Int.lor l r))
      else if operator == "&" then .ok (.integer (Int.land l r))
      else if operator == "^" then .ok (.integer (Int.xor l r))
      else .error (.evalErr false ("Unknown bitwise operator " ++ operator) none)
    | l, r =>
      .error (.evalErr false
        (operator ++ " expects integers not " ++ str l ++ " and " ++ str r) none)
  else
    .error (.evalErr false
      ("Unable to process " ++ str left ++ " " ++ operator ++ " " ++ str right)
      none)

/-- The catch handler of `evalUnary`/`evalBinary`:
`if (e instanceof EvalError && e.expr === undefined) e.expr = node` —
set-if-unset, leaving plain `Error`s and already-attached `EvalError`s
untouched. -/
def attachIfUnset (node : Expression) : Err → Err
  | .evalErr nc msg none => .evalErr nc msg (some node)
  | e => e

/-- The catch handler of `evalLiteral`:
`if (e instanceof EvalError) e.expr = node` — unconditional assignment (no
unset check), leaving plain `Error`s untouched. -/
def attachAlways (node : Expression) : Err → Err
  | .evalErr nc msg _ => .evalErr nc msg (some node)
  | e => e

/-- Message of `NonConstantExpressionError(expr)`. -/
def nonConstMsg (e : Expression) : String :=
  "Found non-constant expression " ++ pp e ++ " during constant evaluation"

/-- The error produced by `evalConstantExpr(undefined)` — the JavaScript
outcome of the dispatcher's unchecked accesses (`vOriginalComponents[0]`,
`decl.vValue`, `vArguments[0]`) when the field is absent: every
`instanceof` test fails on `undefined`, so `isConstant(undefined)` is
`false` and `new NonConstantExpressionError(undefined)` is thrown, whose
`expr` field is `undefined` (unset).  All these paths are unreachable when
the `isConstant` gate has passed. -/
def nonConstUndefinedErr : Err :=
  .evalErr true
    ("Found non-constant expression undefined during constant evaluation") none

/-- JavaScript truthiness of a `Value`, as used by the dispatcher's
`evalConstantExpr(node.vCondition) ? … : …`: `false`, `0n` and `""` are
falsy; any `Decimal` instance is an object and hence truthy (even zero). -/
def truthy : Value → Bool
  | .boolean b => b
  | .integer i => i != 0
  | .string s => s != ""
  | .decimal _ => true

/-- `evalLiteral(node)`: calls `evalLiteralImpl` with `node.hexValue` for
hex-string literals and `node.value` otherwise, and attaches `node` to any
caught `EvalError` (unconditionally — this frame never receives an error
that already carries an expression, as `evalLiteralImpl` attaches none).
On a non-`Literal` node the field reads yield `undefined` and
`evalLiteralImpl` throws its `Unsupported literal kind` error (unreachable
from the dispatcher). -/
def evalLiteral (node : Expression) : Except Err Value :=
  match node with
  | .literal kind value hexValue subdenomination =>
    match evalLiteralImpl kind (if kind == "hexString" then hexValue else value)
        subdenomination with
    | .ok v => .ok v
    | .error e => .error (attachAlways (.literal kind value hexValue subdenomination) e)
  | n =>
    .error (attachAlways n
      (.evalErr false ("Unsupported literal kind \"undefined\"") none))

mutual
/-- `evalConstantExpr(node)`: gate on `isConstant`, then dispatch on the
node's shape.  The `Identifier` case falls through to the trailing generic
`EvalError` when the referenced declaration is not a `VariableDeclaration`,
exactly as the source's if-chain does. -/
def evalConstantExpr (node : Expression) : Except Err Value :=
  if isConstant node then
    match node with
    | .literal kind value hexValue subdenomination =>
      evalLiteral (.literal kind value hexValue subdenomination)
    | .unaryOperation operator vSubExpression =>
      evalUnary (.unaryOperation operator vSubExpression)
    | .binaryOperation operator l r => evalBinary (.binaryOperation operator l r)
    | .tupleExpression _ comps =>
      match comps with
      | some c :: _ => evalConstantExpr c
      | _ => .error nonConstUndefinedErr
    | .conditional c t f =>
      evalConstantExpr c >>= fun v =>
        if truthy v then evalConstantExpr t else evalConstantExpr f
    | .identifier (some (.variableDeclaration _ (some v))) => evalConstantExpr v
    | .identifier (some (.variableDeclaration _ none)) =>
      .error nonConstUndefinedErr
    | .identifier d =>
      .error (.evalErr false
        ("Unable to evaluate constant expression " ++ pp (.identifier d))
        (some (.identifier d)))
    | .functionCall _kind args =>
      match args with
      | a :: _ => evalConstantExpr a
      | [] => .error nonConstUndefinedErr
    | .otherExpression =>
      .error (.evalErr false
        ("Unable to evaluate constant expression " ++ pp .otherExpression)
        (some .otherExpression))
  else .error (.evalErr true (nonConstMsg node) (some node))
termination_by 2 * sizeOf node + 1
decreasing_by all_goals (simp_wf; try omega)

/-- `evalUnary(node)`: evaluate the operand recursively, apply
`evalUnaryImpl`, and attach `node` to a caught `EvalError` that carries no
expression yet. -/
def evalUnary (node : Expression) : Except Err Value :=
  match node with
  | .unaryOperation operator vSubExpression =>
    match evalConstantExpr vSubExpression >>= fun v =>
        evalUnaryImpl operator v with
    | .ok v => .ok v
    | .error e =>
      .error (attachIfUnset (.unaryOperation operator vSubExpression) e)
  | n => .error (attachIfUnset n nonConstUndefinedErr)
termination_by 2 * sizeOf node
decreasing_by all_goals (simp_wf; try omega)

/-- `evalBinary(node)`: evaluate both operands recursively (left first),
apply `evalBinaryImpl`, and attach `node` to a caught `EvalError` that
carries no expression yet. -/
def evalBinary (node : Expression) : Except Err Value :=
  match node with
  | .binaryOperation operator l r =>
    match evalConstantExpr l >>= fun lv =>
        evalConstantExpr r >>= fun rv =>
        evalBinaryImpl operator lv rv with
    | .ok v => .ok v
    | .error e => .error (attachIfUnset (.binaryOperation operator l r) e)
  | n => .error (attachIfUnset n nonConstUndefinedErr)
termination_by 2 * sizeOf node
decreasing_by all_goals (simp_wf; try omega)
end



/-- Discriminates thrown `EvalError` instances (including the
`NonConstantExpressionError` subclass) from plain JavaScript `Error`s:
the `e instanceof EvalError` test of the catch handlers. -/
def isEvalErrorKind : Err → Bool
  | .evalErr .. => true
  | .jsErr _ => false

/-- The optional `expr` field of a thrown error (`none` for a plain
`Error`, which has no such field). -/
def exprOf : Err → Option Expression
  | .evalErr _ _ ex => ex
  | .jsErr _ => none

/-!  ## Helper lemmas  -/

set_option maxRecDepth 10000

/-- `stripTens` is value-preserving: the stripped mantissa times the
stripped power of ten recovers the input. -/
theorem stripTens_spec (n : Nat) : (stripTens n).1 * 10 ^ (stripTens n).2 = n := by
  induction n using stripTens.induct with
  | case1 n h ih =>
    rw [stripTens, if_pos h]
    dsimp only
    obtain ⟨hn, hmod⟩ := h
    have h10 : 10 ∣ n := Nat.dvd_of_mod_eq_zero hmod
    calc (stripTens (n / 10)).1 * 10 ^ ((stripTens (n / 10)).2 + 1)
        = (stripTens (n / 10)).1 * 10 ^ (stripTens (n / 10)).2 * 10 := by ring
      _ = n / 10 * 10 := by rw [ih]
      _ = n := Nat.div_mul_cancel h10
  | case2 n h =>
    rw [stripTens]
    simp [h]

/-- A canonicalized decimal with nonnegative exponent is integral. -/
theorem isInt_normFin (m e : Int) (he : 0 ≤ e) : (Dec.normFin m e).isInt = true := by
  unfold Dec.normFin
  split
  · simp [Dec.isInt]
  · simp only [Dec.isInt, decide_eq_true_eq]
    omega

/-- `normFin` preserves the denoted integer when the exponent is
nonnegative. -/
theorem toIntVal_normFin (m e : Int) (he : 0 ≤ e) :
    (Dec.normFin m e).toIntVal = m * 10 ^ e.toNat := by
  unfold Dec.normFin
  split
  · simp_all [Dec.toIntVal]
  · rename_i hm
    simp only [Dec.toIntVal]
    have hspec := stripTens_spec m.natAbs
    have hcast : ((stripTens m.natAbs).1 : Int) * 10 ^ (stripTens m.natAbs).2 =
        (m.natAbs : Int) := by exact_mod_cast congrArg (Nat.cast : Nat → Int) hspec
    have htn : (e + (stripTens m.natAbs).2).toNat = e.toNat + (stripTens m.natAbs).2 := by
      omega
    rw [htn, pow_add]
    by_cases hneg : m < 0
    · simp only [if_pos hneg]
      have habs : (m.natAbs : Int) = -m := by omega
      calc -((stripTens m.natAbs).1 : Int) * (10 ^ e.toNat * 10 ^ (stripTens m.natAbs).2)
          = -(((stripTens m.natAbs).1 : Int) * 10 ^ (stripTens m.natAbs).2) * 10 ^ e.toNat := by
            ring
        _ = -((m.natAbs : Int)) * 10 ^ e.toNat := by rw [hcast]
        _ = m * 10 ^ e.toNat := by rw [habs]; ring
    · simp only [if_neg hneg]
      have habs : (m.natAbs : Int) = m := by omega
      calc ((stripTens m.natAbs).1 : Int) * (10 ^ e.toNat * 10 ^ (stripTens m.natAbs).2)
          = (((stripTens m.natAbs).1 : Int) * 10 ^ (stripTens m.natAbs).2) * 10 ^ e.toNat := by
            ring
        _ = ((m.natAbs : Int)) * 10 ^ e.toNat := by rw [hcast]
        _ = m * 10 ^ e.toNat := by rw [habs]

/-- `demoteFromDec` yields an `Integer` exactly on integral decimals. -/
theorem demote_integer_iff (d : Dec) :
    (∃ i : Int, demoteFromDec d = .integer i) ↔ d.isInt = true := by
  unfold demoteFromDec
  split
  · rename_i h
    exact ⟨fun _ => h, fun _ => ⟨d.toIntVal, rfl⟩⟩
  · rename_i h
    simp only [Bool.not_eq_true] at h
    simp [h]

/-- `digitsLen` via bounds: a number in `[10^k, 10^(k+1))` has `k + 1`
digits. -/
theorem digitsLen_eq (k : Nat) : ∀ n : Nat, 10 ^ k ≤ n → n < 10 ^ (k + 1) →
    digitsLen n = k + 1 := by
  induction k with
  | zero =>
    intro n h1 h2
    have h10 : n < 10 := by simpa using h2
    rw [digitsLen, if_pos h10]
  | succ k ih =>
    intro n h1 h2
    have hge : 10 ≤ n := by
      calc (10 : Nat) = 10 ^ 1 := by norm_num
        _ ≤ 10 ^ (k + 1) := Nat.pow_le_pow_right (by norm_num) (by omega)
        _ ≤ n := h1
    rw [digitsLen, if_neg (by omega)]
    have h1' : 10 ^ k ≤ n / 10 := by
      rw [Nat.le_div_iff_mul_le (by norm_num)]
      calc 10 ^ k * 10 = 10 ^ (k + 1) := by ring
        _ ≤ n := h1
    have h2' : n / 10 < 10 ^ (k + 1) := by
      rw [Nat.div_lt_iff_lt_mul (by norm_num)]
      calc n < 10 ^ (k + 1 + 1) := h2
        _ = 10 ^ (k + 1) * 10 := by ring
    rw [ih _ h1' h2']

/-- `stripTens` on a mantissa with an explicit power-of-ten factor. -/
theorem stripTens_mul_pow (k : Nat) : ∀ a : Nat, a % 10 ≠ 0 →
    stripTens (a * 10 ^ k) = (a, k) := by
  induction k with
  | zero =>
    intro a ha
    rw [stripTens, if_neg (fun h => ha (by simpa using h.2))]
    simp
  | succ k ih =>
    intro a ha
    have ha0 : a ≠ 0 := by omega
    have hmod : a * 10 ^ (k + 1) % 10 = 0 := by
      rw [pow_succ, ← mul_assoc]
      exact Nat.mul_mod_left _ _
    rw [stripTens, if_pos ⟨by positivity, hmod⟩]
    have hdiv : a * 10 ^ (k + 1) / 10 = a * 10 ^ k := by
      rw [pow_succ, ← mul_assoc]
      exact Nat.mul_div_cancel _ (by norm_num)
    rw [hdiv, ih a ha]

/-- `digitsLen 1`. -/
theorem digitsLen_one : digitsLen 1 = 1 := by simp [digitsLen]

/-- `digitsLen 3`. -/
theorem digitsLen_three : digitsLen 3 = 1 := by simp [digitsLen]

/-- `normFin` on a positive mantissa, in terms of `stripTens`. -/
theorem normFin_pos (q : Nat) (e : Int) (hq : q ≠ 0) (a z : Nat)
    (hstrip : stripTens q = (a, z)) :
    Dec.normFin (q : Int) e = .fin (a : Int) (e + z) := by
  rw [Dec.normFin, if_neg (by exact_mod_cast hq)]
  simp only []
  rw [Int.natAbs_ofNat, hstrip]
  simp only []
  rw [if_neg (not_lt.mpr (by positivity))]

/-- Symbolic evaluation of `round100` in the above-precision case: the
rounded mantissa `q` and its canonicalization are taken as hypotheses, to
be discharged by literal arithmetic at each instance. -/
theorem round100_eval (m e : Int) (L k q a z : Nat)
    (hm : 0 < m)
    (hL : digitsLen m.natAbs = L) (h100 : 100 < L) (hk : L - 100 = k)
    (hq : (m.natAbs + 5 * 10 ^ (k - 1)) / 10 ^ k = q) (hq0 : q ≠ 0)
    (hstrip : stripTens q = (a, z)) :
    Dec.round100 m e = .fin (a : Int) (e + k + z) := by
  rw [Dec.round100, if_neg hm.ne']
  simp only []
  rw [hL]
  rw [if_neg (by rw [show PRECISION = 100 from rfl]; omega)]
  rw [show PRECISION = 100 from rfl, hk, hq]
  rw [if_neg (by omega)]
  rw [normFin_pos q (e + k) hq0 a z hstrip]

/-- Symbolic evaluation of `Dec.plus` on finite operands with `e1 ≤ e2`:
the aligned exact sum `S` is rounded by `round100`. -/
theorem plus_eval (m1 e1 m2 e2 : Int) (t : Nat) (S : Int)
    (hmin : e1 ≤ e2) (ht : (e2 - e1).toNat = t)
    (hS : m1 + m2 * 10 ^ t = S) :
    Dec.plus (.fin m1 e1) (.fin m2 e2) = Dec.round100 S e1 := by
  rw [Dec.plus, Dec.align]
  simp only []
  rw [min_eq_left hmin]
  rw [show (e1 - e1).toNat = 0 from by omega, ht]
  rw [pow_zero, mul_one, hS]

/-- Symbolic evaluation of `divFin` for positive single-digit mantissas:
the guard-digit quotient `Q`, its length `L` and the rounded mantissa `M`
are hypotheses discharged by literal arithmetic at each instance. -/
theorem divFin_eval (m1 e1 m2 e2 : Int) (Q L k M : Nat)
    (hm1 : 0 < m1) (hm2 : 0 < m2)
    (hd1 : digitsLen m1.natAbs = 1) (hd2 : digitsLen m2.natAbs = 1)
    (hQ : m1.natAbs * 10 ^ 101 / m2.natAbs = Q)
    (hL : digitsLen Q = L) (hk : L - 100 = k)
    (hM : (Q + 5 * 10 ^ (k - 1)) / 10 ^ k = M) :
    Dec.divFin m1 e1 m2 e2 = Dec.normFin (M : Int) (e1 - e2 - 101 + k) := by
  rw [Dec.divFin, if_neg hm1.ne']
  simp only []
  rw [hd1, hd2]
  rw [show PRECISION = 100 from rfl]
  rw [show ((100 : Nat) : Int) + 1 - (((1 : Nat) : Int) - ((1 : Nat) : Int)) = 101 from by norm_num]
  rw [show ((101 : Int)).toNat = 101 from rfl]
  rw [show ((-(101 : Int))).toNat = 0 from rfl]
  rw [pow_zero, mul_one, hQ, hL, hk, hM]
  have hpos : ((0 < m1) = (0 < m2)) := by rw [eq_true hm1, eq_true hm2]
  rw [if_pos hpos]

/-- The decimal.js computation `Decimal(1e-101).plus(1)`: the exact sum
`1 + 10^(-101)` has 102 significant digits, so rounding to 100 digits
yields exactly `1`. -/
theorem dec_plus_one_em101 :
    Dec.plus (.fin 1 (-101)) (.fin 1 0) = .fin 1 0 := by
  have habs : ((100000000000000000000000000000000000000000000000000000000000000000000000000000000000000000000000000001 : Int)).natAbs = 100000000000000000000000000000000000000000000000000000000000000000000000000000000000000000000000000001 := rfl
  have hL : digitsLen ((100000000000000000000000000000000000000000000000000000000000000000000000000000000000000000000000000001 : Int)).natAbs = 102 := by
    rw [habs]
    have h := digitsLen_eq 101 100000000000000000000000000000000000000000000000000000000000000000000000000000000000000000000000000001 (by norm_num) (by norm_num)
    omega
  have hq : (((100000000000000000000000000000000000000000000000000000000000000000000000000000000000000000000000000001 : Int)).natAbs + 5 * 10 ^ (2 - 1)) / 10 ^ 2 = 1000000000000000000000000000000000000000000000000000000000000000000000000000000000000000000000000000 := by
    rw [habs]
    norm_num
  have hstrip : stripTens 1000000000000000000000000000000000000000000000000000000000000000000000000000000000000000000000000000 = (1, 99) := by
    have h := stripTens_mul_pow 99 1 (by norm_num)
    rw [one_mul] at h
    norm_num at h
    exact h
  rw [plus_eval 1 (-101) 1 0 101 100000000000000000000000000000000000000000000000000000000000000000000000000000000000000000000000000001 (by norm_num) (by rfl) (by norm_num)]
  rw [round100_eval 100000000000000000000000000000000000000000000000000000000000000000000000000000000000000000000000000001 (-101) 102 2 1000000000000000000000000000000000000000000000000000000000000000000000000000000000000000000000000000 1 99 (by norm_num) hL (by norm_num)
    (by norm_num) hq (by norm_num) hstrip]
  norm_num

/-- The decimal.js computation `Decimal(1).div(3)` at precision 100: the
correctly rounded quotient is `0.333…3` with one hundred `3`s. -/
theorem dec_div_one_three :
    Dec.div (.fin 1 0) (.fin 3 0) = .fin 3333333333333333333333333333333333333333333333333333333333333333333333333333333333333333333333333333 (-100) := by
  have hd1 : digitsLen ((1 : Int)).natAbs = 1 := digitsLen_one
  have hd2 : digitsLen ((3 : Int)).natAbs = 1 := digitsLen_three
  have hQ : ((1 : Int)).natAbs * 10 ^ 101 / ((3 : Int)).natAbs = 33333333333333333333333333333333333333333333333333333333333333333333333333333333333333333333333333333 := by norm_num
  have hL : digitsLen 33333333333333333333333333333333333333333333333333333333333333333333333333333333333333333333333333333 = 101 := by
    have h := digitsLen_eq 100 33333333333333333333333333333333333333333333333333333333333333333333333333333333333333333333333333333 (by norm_num) (by norm_num)
    omega
  have hM : (33333333333333333333333333333333333333333333333333333333333333333333333333333333333333333333333333333 + 5 * 10 ^ (1 - 1)) / 10 ^ 1 = 3333333333333333333333333333333333333333333333333333333333333333333333333333333333333333333333333333 := by norm_num
  have hstrip : stripTens 3333333333333333333333333333333333333333333333333333333333333333333333333333333333333333333333333333 = (3333333333333333333333333333333333333333333333333333333333333333333333333333333333333333333333333333, 0) := by
    have h := stripTens_mul_pow 0 3333333333333333333333333333333333333333333333333333333333333333333333333333333333333333333333333333 (by norm_num)
    rw [pow_zero, mul_one] at h
    exact h
  simp only [Dec.div]
  rw [if_neg (by norm_num)]
  rw [divFin_eval 1 0 3 0 33333333333333333333333333333333333333333333333333333333333333333333333333333333333333333333333333333 101 1 3333333333333333333333333333333333333333333333333333333333333333333333333333333333333333333333333333 (by norm_num) (by norm_num) hd1 hd2
    hQ hL (by norm_num) hM]
  rw [normFin_pos 3333333333333333333333333333333333333333333333333333333333333333333333333333333333333333333333333333 (0 - 0 - 101 + (1 : Nat)) (by norm_num) 3333333333333333333333333333333333333333333333333333333333333333333333333333333333333333333333333333 0 hstrip]
  norm_num

/-!  ## Claim theorems  -/

/-- C2.  The claim states that `evalBinary` with `"/"` or `"%"` and a zero
right operand fails with an `EvalError`.  The code has no zero check: the
arithmetic branch calls `Decimal.prototype.div`/`mod`, which decimal.js
defines as ±Infinity (nonzero dividend) resp. NaN on a zero divisor, and
`demoteFromDec` passes the non-integral special value through — so
`1 / 0` evaluates to the Decimal `Infinity` and `1 % 0` to the Decimal
`NaN`, with no error raised. -/
theorem evalBinaryImpl_div_mod_by_zero :
    evalBinaryImpl "/" (.integer 1) (.integer 0) = .ok (.decimal (.inf true)) ∧
    evalBinaryImpl "%" (.integer 1) (.integer 0) = .ok (.decimal .nan) := by
  constructor <;>
    simp [evalBinaryImpl, BINARY_OPERATOR_GROUPS, promoteToDec, arithRes,
      Dec.div, Dec.modulo, Dec.normFin, stripTens, demoteFromDec, Dec.isInt,
      Bind.bind, Except.bind]

/-- C3.  The claim states that `evalBinary` with `"<<"` or `">>"` and a
negative right operand fails with an `EvalError`.  The code has no
negativity check: JavaScript `BigInt` shifts accept negative counts and
shift in the opposite direction, so `1n << -1n` evaluates to `0n` and
`1n >> -1n` to `2n`, with no error raised. -/
theorem evalBinaryImpl_negative_shift :
    evalBinaryImpl "<<" (.integer 1) (.integer (-1)) = .ok (.integer 0) ∧
    evalBinaryImpl ">>" (.integer 1) (.integer (-1)) = .ok (.integer 2) := by
  constructor <;>
    simp [evalBinaryImpl, BINARY_OPERATOR_GROUPS, bigintShiftLeft,
      bigintShiftRight, Int.fdiv]

/-- C4 counterexample.  The claim states `promoteToDecimal` rejects a
Boolean with an `EvalError`; the code's `promoteToDec` throws a **plain**
`Error` (`throw new Error(...)`), which is not an `EvalError` of any
shape. -/
theorem promoteToDec_bool_raises_plain_error :
    promoteToDec (.boolean true) = .error (.jsErr "Expected number not true") ∧
    ∀ (nonConst : Bool) (msg : String) (ex : Option Expression),
      promoteToDec (.boolean true) ≠ .error (.evalErr nonConst msg ex) := by
  constructor
  · rfl
  · intro nonConst msg ex h
    simp [promoteToDec, jsTemplate] at h

/-- C4 amended.  For every Boolean or String value, `promoteToDec` fails
with a plain JavaScript `Error` — not an `EvalError` — and the raised
error carries no expression reference (a plain `Error` has no `expr` slot
at all; the catch handlers, which only enrich `EvalError`s, leave it
untouched). -/
theorem promoteToDec_mismatch_plain_error (b : Bool) (s : String) :
    promoteToDec (.boolean b) =
      .error (.jsErr ("Expected number not " ++ jsTemplate (.boolean b))) ∧
    promoteToDec (.string s) =
      .error (.jsErr ("Expected number not " ++ s)) := by
  constructor <;> rfl

/-- C5 counterexample.  The claim includes the integral-Decimal case in the
round-trip law, but there `demoteFromDec(promoteToDec(x))` returns the
**Integer** `BigInt(x.toFixed())`, a different member of the `Value` union
than the Decimal `x`: for `x = Decimal 2` the round trip yields bigint
`2n`, not `x`. -/
theorem roundTrip_integral_decimal_demotes :
    (promoteToDec (.decimal (.fin 2 0))).map demoteFromDec = .ok (.integer 2) ∧
    Value.integer 2 ≠ Value.decimal (.fin 2 0) := by
  constructor
  · rfl
  · intro h
    cases h

/-- C5 amended.  `demoteFromDec(promoteToDec(x)) = x` holds for every
Integer `x` and every Decimal `x` with a fractional part; for a Decimal
with no fractional part the round trip instead returns the demoted Integer
of the same numeric value (`BigInt(x.toFixed())`). -/
theorem roundTrip_promote_demote (i : Int) (d : Dec) :
    (promoteToDec (.integer i)).map demoteFromDec = .ok (.integer i) ∧
    (d.isInt = false →
      (promoteToDec (.decimal d)).map demoteFromDec = .ok (.decimal d)) ∧
    (d.isInt = true →
      (promoteToDec (.decimal d)).map demoteFromDec = .ok (.integer d.toIntVal)) := by
  refine ⟨?_, ?_, ?_⟩
  · have h1 := isInt_normFin i 0 le_rfl
    have h2 := toIntVal_normFin i 0 le_rfl
    simp only [promoteToDec, Except.map, demoteFromDec, h1, if_pos, h2]
    norm_num
  · intro h
    simp [promoteToDec, Except.map, demoteFromDec, h]
  · intro h
    simp [promoteToDec, Except.map, demoteFromDec, h]

/-- C5 witness: the three cases of the amended round-trip law at `5`,
`Decimal 0.5` and `Decimal 2`. -/
theorem roundTrip_promote_demote_witness :
    (promoteToDec (.integer 5)).map demoteFromDec = .ok (.integer 5) ∧
    (promoteToDec (.decimal (.fin 5 (-1)))).map demoteFromDec =
      .ok (.decimal (.fin 5 (-1))) ∧
    (promoteToDec (.decimal (.fin 2 0))).map demoteFromDec =
      .ok (.integer ((2 : Int) * 10 ^ (0 : Int).toNat)) :=
  ⟨(roundTrip_promote_demote 5 (.fin 5 (-1))).1,
   (roundTrip_promote_demote 5 (.fin 5 (-1))).2.1 (by simp [Dec.isInt]),
   (roundTrip_promote_demote 5 (.fin 2 0)).2.2 (by simp [Dec.isInt])⟩

/-- C10.  `evalLiteral` on a Boolean-kind literal never fails and returns
`true` exactly when the raw text is `"true"` (`value === "true"`), `false`
for every other raw text. -/
theorem evalLiteral_bool_total (value hexValue : String) (sub : Option String) :
    evalLiteral (.literal "bool" value hexValue sub) =
      .ok (.boolean (value == "true")) := by
  simp [evalLiteral, evalLiteralImpl]

/-- C9.  For a Number-kind literal whose raw text parses to a base value:
an unrecognized unit denomination fails with `EvalError` (no expression
attached by the impl); a recognized unit's multiplier is applied by integer
multiplication (`val * BigInt(multiplier.toFixed())`) when the base value
is an Integer and by decimal multiplication followed by demotion
(`demoteFromDec(val.times(multiplier))`) when it is a Decimal; and the
literal `"1"` with unit `minutes` evaluates to `Integer(60)`. -/
theorem evalLiteralImpl_subdenomination :
    (∀ (value u : String) (d : Dec),
        parseDec (stripUnderscores value) = some d →
        SUBDENOMINATION_MULTIPLIERS u = none →
        evalLiteralImpl "number" value (some u) =
          .error (.evalErr false ("Unknown denomination " ++ u) none)) ∧
    (∀ (value u : String) (d mult : Dec),
        parseDec (stripUnderscores value) = some d →
        SUBDENOMINATION_MULTIPLIERS u = some mult →
        evalLiteralImpl "number" value (some u) =
          if d.isInt then .ok (.integer (d.toIntVal * mult.toIntVal))
          else .ok (demoteFromDec (d.times mult))) ∧
    evalLiteralImpl "number" "1" (some "minutes") = .ok (.integer 60) := by
  refine ⟨?_, ?_, ?_⟩
  · intro value u d hparse hunit
    simp [evalLiteralImpl, hparse, hunit]
  · intro value u d mult hparse hunit
    by_cases hInt : d.isInt = true
    · simp [evalLiteralImpl, hparse, hunit, hInt]
    · simp only [Bool.not_eq_true] at hInt
      simp [evalLiteralImpl, hparse, hunit, hInt]
  · simp [evalLiteralImpl, parseDec, parseUnsigned, parseDigits, parseSignedNat,
      digitVal, stripUnderscores, SUBDENOMINATION_MULTIPLIERS, Dec.normFin,
      stripTens, Dec.isInt, Dec.toIntVal]

/-- C9 witness: the unknown-denomination case at `"2"`/`"bogus"` and the
recognized-unit case at `"1"`/`"minutes"`. -/
theorem evalLiteralImpl_subdenomination_witness :
    evalLiteralImpl "number" "2" (some "bogus") =
      .error (.evalErr false ("Unknown denomination " ++ "bogus") none) ∧
    evalLiteralImpl "number" "1" (some "minutes") =
      (if (Dec.fin 1 0).isInt
        then .ok (.integer ((Dec.fin 1 0).toIntVal * (Dec.fin 6 1).toIntVal))
        else .ok (demoteFromDec ((Dec.fin 1 0).times (.fin 6 1)))) :=
  ⟨evalLiteralImpl_subdenomination.1 "2" "bogus" (.fin 2 0)
      (by simp [parseDec, parseUnsigned, parseDigits, digitVal, stripUnderscores,
        Dec.normFin, stripTens])
      (by simp [SUBDENOMINATION_MULTIPLIERS]),
   evalLiteralImpl_subdenomination.2.1 "1" "minutes" (.fin 1 0) (.fin 6 1)
      (by simp [parseDec, parseUnsigned, parseDigits, digitVal, stripUnderscores,
        Dec.normFin, stripTens])
      (by simp [SUBDENOMINATION_MULTIPLIERS])⟩

/-- C1.  For every expression, when `isConstant(expr)` is `false`,
`evalConstantExpr(expr)` fails with `NonConstantExpressionError` (the
`EvalError` subclass, marked by the `nonConst` flag, with the node
attached at construction): the classifier gate is the first statement of
the function, before any shape dispatch, so this holds uniformly for every
shape. -/
theorem evalConstantExpr_nonConstant (e : Expression)
    (h : isConstant e = false) :
    evalConstantExpr e = .error (.evalErr true (nonConstMsg e) (some e)) := by
  rw [evalConstantExpr.eq_def]
  simp [h]

/-- C1 witness: an `Identifier` with an unresolved declaration is not
constant, and evaluating it yields the `NonConstantExpressionError`. -/
theorem evalConstantExpr_nonConstant_witness :
    isConstant (.identifier none) = false ∧
    evalConstantExpr (.identifier none) =
      .error (.evalErr true (nonConstMsg (.identifier none))
        (some (.identifier none))) :=
  ⟨rfl, evalConstantExpr_nonConstant (.identifier none) rfl⟩

/-- C6 counterexample.  The claim says an arithmetic result is a Decimal
whenever it is not mathematically integral.  decimal.js rounds every
arithmetic result to 100 significant digits: the exact sum
`Decimal(1e-101) + Integer(1) = 1 + 10^(-101) = (10^101 + 1) × 10^(-101)`
is not an integer (second conjunct), yet the rounded result is exactly `1`,
which `demoteFromDec` returns as `Integer(1)`. -/
theorem evalBinaryImpl_add_rounds_to_integer :
    evalBinaryImpl "+" (.decimal (.fin 1 (-101))) (.integer 1) =
      .ok (.integer 1) ∧
    ∀ z : Int, (1 : ℚ) + 1 / 10 ^ 101 ≠ (z : ℚ) := by
  constructor
  · simp [evalBinaryImpl, BINARY_OPERATOR_GROUPS, promoteToDec, arithRes,
      dec_plus_one_em101, demoteFromDec, Dec.isInt, Dec.toIntVal, Dec.normFin,
      stripTens, Bind.bind, Except.bind]
  · intro z hz
    have h1 : ((10 : ℚ) ^ 101 + 1) = z * 10 ^ 101 := by
      field_simp at hz
      linarith
    have h2 : ((10 : ℤ) ^ 101 + 1) = z * 10 ^ 101 := by exact_mod_cast h1
    have h3 : (1 : ℤ) = 10 ^ 101 * (z - 1) := by ring_nf; ring_nf at h2; linarith
    have h4 : (10 : ℤ) ^ 101 ≤ 1 := Int.le_of_dvd one_pos ⟨z - 1, h3⟩
    norm_num at h4

/-- C6 amended.  For every arithmetic operator and numeric operands, the
result of `evalBinaryImpl` is `demoteFromDec` of the decimal result
computed (and rounded to 100 significant digits) by decimal.js: an Integer
exactly when that rounded decimal is integral, and a Decimal otherwise.
`Integer(2) + Integer(3)` yields `Integer(5)`; `Integer(1) / Integer(3)`
yields the non-demoted 100-digit Decimal `0.333…3`.  (Because of the
rounding, integrality of the *rounded* result can differ from mathematical
integrality of the exact value — see the counterexample.) -/
theorem evalBinaryImpl_arith_demotes :
    (∀ (op : String) (l r : Value) (ld rd : Dec),
        BINARY_OPERATOR_GROUPS.Arithmetic.contains op = true →
        promoteToDec l = .ok ld → promoteToDec r = .ok rd →
        ∃ res : Dec, arithRes op ld rd = .ok res ∧
          evalBinaryImpl op l r = .ok (demoteFromDec res) ∧
          ((∃ i : Int, demoteFromDec res = .integer i) ↔ res.isInt = true)) ∧
    evalBinaryImpl "+" (.integer 2) (.integer 3) = .ok (.integer 5) ∧
    evalBinaryImpl "/" (.integer 1) (.integer 3) =
      .ok (.decimal (.fin ((10 ^ 100 - 1) / 3) (-100))) := by
  refine ⟨?_, ?_, ?_⟩
  · intro op l r ld rd hop hl hr
    have hmem : op ∈ ["+", "-", "*", "/", "%", "**"] := by
      simpa [BINARY_OPERATOR_GROUPS] using hop
    simp only [List.mem_cons, List.not_mem_nil, or_false] at hmem
    rcases hmem with h | h | h | h | h | h <;> subst h <;>
      refine ⟨_, rfl, ?_, demote_integer_iff _⟩ <;>
      simp [evalBinaryImpl, BINARY_OPERATOR_GROUPS, hl, hr, arithRes,
        Bind.bind, Except.bind]
  · simp [evalBinaryImpl, BINARY_OPERATOR_GROUPS, promoteToDec, arithRes,
      Dec.plus, Dec.align, Dec.round100, Dec.normFin, stripTens, digitsLen,
      demoteFromDec, Dec.isInt, Dec.toIntVal, PRECISION, Bind.bind, Except.bind]
  · simp [evalBinaryImpl, BINARY_OPERATOR_GROUPS, promoteToDec, arithRes,
      dec_div_one_three, demoteFromDec, Dec.isInt, Dec.normFin, stripTens,
      Bind.bind, Except.bind]

/-- C6 witness: the demotion law applied at `Integer(2) + Integer(3)`. -/
theorem evalBinaryImpl_arith_demotes_witness :
    ∃ res : Dec, arithRes "+" (.fin 2 0) (.fin 3 0) = .ok res ∧
      evalBinaryImpl "+" (.integer 2) (.integer 3) = .ok (demoteFromDec res) ∧
      ((∃ i : Int, demoteFromDec res = .integer i) ↔ res.isInt = true) :=
  evalBinaryImpl_arith_demotes.1 "+" (.integer 2) (.integer 3) (.fin 2 0)
    (.fin 3 0) (by simp [BINARY_OPERATOR_GROUPS])
    (by simp [promoteToDec, Dec.normFin, stripTens])
    (by simp [promoteToDec, Dec.normFin, stripTens])

/-- C7.  For a constant `Conditional`, the dispatcher evaluates the
condition and then only the selected branch: whenever the condition
evaluates to a truthy value, the conditional's result **is** the result of
the true branch alone, whatever the false branch is — so a conditional
whose false branch would fail to evaluate still returns the true branch's
value (second conjunct: the false branch `!1` on its own fails with an
`EvalError`, third conjunct, yet the conditional returns `Integer(1)`). -/
theorem evalConstantExpr_conditional_lazy :
    (∀ (c t f : Expression) (v : Value),
        isConstant c = true → isConstant t = true → isConstant f = true →
        evalConstantExpr c = .ok v → truthy v = true →
        evalConstantExpr (.conditional c t f) = evalConstantExpr t) ∧
    evalConstantExpr (.conditional (.literal "bool" "true" "" none)
        (.literal "number" "1" "" none)
        (.unaryOperation "!" (.literal "number" "1" "" none))) =
      .ok (.integer 1) ∧
    evalConstantExpr (.unaryOperation "!" (.literal "number" "1" "" none)) =
      .error (.evalErr false ("Expected " ++ str (.integer 1) ++ " to be boolean")
        (some (.unaryOperation "!" (.literal "number" "1" "" none)))) := by
  refine ⟨?_, ?_, ?_⟩
  · intro c t f v hc ht hf hev htr
    have hg : isConstant (.conditional c t f) = true := by
      simp [isConstant, hc, ht, hf]
    rw [evalConstantExpr.eq_def]
    simp [hg, hev, htr, Bind.bind, Except.bind]
  · simp [evalConstantExpr, evalLiteral, evalUnary, isConstant, evalLiteralImpl,
      evalUnaryImpl, parseDec, parseUnsigned, parseDigits, parseSignedNat,
      digitVal, stripUnderscores, Dec.normFin, stripTens, Dec.isInt,
      Dec.toIntVal, truthy, attachAlways, attachIfUnset, Bind.bind, Except.bind]
  · simp [evalConstantExpr, evalLiteral, evalUnary, isConstant, evalLiteralImpl,
      evalUnaryImpl, parseDec, parseUnsigned, parseDigits, parseSignedNat,
      digitVal, stripUnderscores, Dec.normFin, stripTens, Dec.isInt,
      Dec.toIntVal, truthy, attachAlways, attachIfUnset, Bind.bind, Except.bind]

/-- C7 witness: the laziness law applied at the concrete conditional — its
evaluation is literally the evaluation of the true branch. -/
theorem evalConstantExpr_conditional_lazy_witness :
    evalConstantExpr (.conditional (.literal "bool" "true" "" none)
        (.literal "number" "1" "" none)
        (.unaryOperation "!" (.literal "number" "1" "" none))) =
      evalConstantExpr (.literal "number" "1" "" none) :=
  evalConstantExpr_conditional_lazy.1 (.literal "bool" "true" "" none)
    (.literal "number" "1" "" none)
    (.unaryOperation "!" (.literal "number" "1" "" none)) (.boolean true)
    rfl rfl rfl
    (by simp [evalConstantExpr, evalLiteral, isConstant, evalLiteralImpl,
      attachAlways])
    rfl

/-- An `EvalError` coming out of `attachAlways` carries an expression. -/
theorem attachAlways_kind_some (n : Expression) (e : Err)
    (hk : isEvalErrorKind (attachAlways n e) = true) :
    (exprOf (attachAlways n e)).isSome = true := by
  cases e with
  | evalErr nc msg ex => simp [attachAlways, exprOf]
  | jsErr m => simp [attachAlways, isEvalErrorKind] at hk

/-- An `EvalError` coming out of `attachIfUnset` carries an expression. -/
theorem attachIfUnset_kind_some (n : Expression) (e : Err)
    (hk : isEvalErrorKind (attachIfUnset n e) = true) :
    (exprOf (attachIfUnset n e)).isSome = true := by
  cases e with
  | evalErr nc msg ex => cases ex <;> simp [attachIfUnset, exprOf]
  | jsErr m => simp [attachIfUnset, isEvalErrorKind] at hk

/-- `attachIfUnset` never overwrites: an error that already carries an
expression passes through every set-if-unset catch frame unchanged. -/
theorem attachIfUnset_preserves (n : Expression) (err : Err)
    (h : (exprOf err).isSome = true) : attachIfUnset n err = err := by
  cases err with
  | evalErr nc msg ex =>
    cases ex with
    | none => simp [exprOf] at h
    | some x => simp [attachIfUnset]
  | jsErr m => simp [attachIfUnset]

/-- Any `EvalError` escaping the `evalLiteral` frame carries an
expression. -/
theorem evalLiteral_attached (kind value hexValue : String)
    (sub : Option String) (err : Err)
    (h : evalLiteral (.literal kind value hexValue sub) = .error err)
    (hk : isEvalErrorKind err = true) : (exprOf err).isSome = true := by
  simp only [evalLiteral] at h
  cases hres : evalLiteralImpl kind
      (if (kind == "hexString") = true then hexValue else value) sub with
  | ok v =>
    rw [hres] at h
    simp at h
  | error e =>
    rw [hres] at h
    injection h with h
    subst h
    exact attachAlways_kind_some _ _ hk

/-- Any `EvalError` escaping the `evalUnary` frame carries an expression. -/
theorem evalUnary_attached (operator : String) (sub : Expression) (err : Err)
    (h : evalUnary (.unaryOperation operator sub) = .error err)
    (hk : isEvalErrorKind err = true) : (exprOf err).isSome = true := by
  simp only [evalUnary] at h
  cases hres : evalConstantExpr sub >>= fun v => evalUnaryImpl operator v with
  | ok v =>
    rw [hres] at h
    simp at h
  | error e =>
    rw [hres] at h
    injection h with h
    subst h
    exact attachIfUnset_kind_some _ _ hk

/-- Any `EvalError` escaping the `evalBinary` frame carries an
expression. -/
theorem evalBinary_attached (operator : String) (l r : Expression) (err : Err)
    (h : evalBinary (.binaryOperation operator l r) = .error err)
    (hk : isEvalErrorKind err = true) : (exprOf err).isSome = true := by
  simp only [evalBinary] at h
  cases hres : evalConstantExpr l >>= fun lv =>
      evalConstantExpr r >>= fun rv => evalBinaryImpl operator lv rv with
  | ok v =>
    rw [hres] at h
    simp at h
  | error e =>
    rw [hres] at h
    injection h with h
    subst h
    exact attachIfUnset_kind_some _ _ hk

/-- Every `EvalError` that escapes `evalConstantExpr` carries an
expression reference: the catching frames attach their node to a caught
unset `EvalError`, and the non-catching dispatch arms only propagate
errors of strictly smaller subexpressions. -/
theorem evalConstantExpr_error_has_expr (e : Expression) :
    ∀ err : Err, evalConstantExpr e = .error err →
      isEvalErrorKind err = true → (exprOf err).isSome = true := by
  refine evalConstantExpr.induct
    (fun e => ∀ err : Err, evalConstantExpr e = .error err →
      isEvalErrorKind err = true → (exprOf err).isSome = true)
    (fun _ => True) (fun _ => True)
    ?_ ?_ ?_ ?_ ?_ ?_ ?_ ?_ ?_ ?_ ?_ ?_ ?_ ?_ ?_ ?_ ?_ ?_ ?_ e
  · -- literal
    intro kind value hexValue sub hg err h hk
    rw [evalConstantExpr.eq_def] at h
    simp only [hg, if_pos] at h
    exact evalLiteral_attached kind value hexValue sub err h hk
  · -- unary
    intro op sub hg _ err h hk
    rw [evalConstantExpr.eq_def] at h
    simp only [hg, if_pos] at h
    exact evalUnary_attached op sub err h hk
  · -- binary
    intro op l r hg _ err h hk
    rw [evalConstantExpr.eq_def] at h
    simp only [hg, if_pos] at h
    exact evalBinary_attached op l r err h hk
  · -- tuple, components of shape some c :: tail
    intro isArr c tail hg ih err h hk
    rw [evalConstantExpr.eq_def] at h
    simp only [hg, if_pos] at h
    exact ih err h hk
  · -- tuple, other component shapes: excluded by the gate
    intro isArr comps hne hg err h hk
    exfalso
    match comps with
    | [] => simp [isConstant] at hg
    | none :: tl => simp [isConstant] at hg
    | some c :: c2 :: tl => simp [isConstant] at hg
    | [some c] => exact hne c [] rfl
  · -- conditional
    intro c t f hg ihc iht ihf err h hk
    rw [evalConstantExpr.eq_def] at h
    simp only [hg, if_pos] at h
    cases hev : evalConstantExpr c with
    | error e' =>
      rw [hev] at h
      simp only [Bind.bind, Except.bind] at h
      injection h with h
      cases h
      exact ihc _ hev hk
    | ok v =>
      rw [hev] at h
      simp only [Bind.bind, Except.bind] at h
      cases htr : truthy v with
      | true => rw [htr] at h; simp only [if_pos] at h; exact iht err h hk
      | false => rw [htr] at h; simp only [Bool.false_eq_true, if_neg] at h
                 exact ihf err h hk
  · -- identifier → constant variable declaration with initializer
    intro constant v hg ih err h hk
    rw [evalConstantExpr.eq_def] at h
    simp only [hg, if_pos] at h
    exact ih err h hk
  · -- identifier → variable declaration without initializer: gate excludes
    intro constant hg err h hk
    simp [isConstant] at hg
  · -- identifier → any other declaration: gate excludes
    intro d hne1 hne2 hg err h hk
    exfalso
    match d with
    | none => simp [isConstant] at hg
    | some (.variableDeclaration c (some v)) => exact hne1 c v rfl
    | some (.variableDeclaration c none) => exact hne2 c rfl
    | some .otherDeclaration => simp [isConstant] at hg
  · -- function call with arguments
    intro kind a tail hg ih err h hk
    rw [evalConstantExpr.eq_def] at h
    simp only [hg, if_pos] at h
    exact ih err h hk
  · -- function call without arguments: gate excludes
    intro kind hg err h hk
    simp [isConstant] at hg
  · -- any other shape: gate excludes
    intro hg err h hk
    simp [isConstant] at hg
  · -- classifier gate failed: NonConstantExpressionError with node attached
    intro node hg err h hk
    rw [evalConstantExpr.eq_def] at h
    simp only [Bool.not_eq_true] at hg
    simp only [hg, Bool.false_eq_true, if_neg] at h
    injection h with h
    subst h
    simp [exprOf]
  · intros; trivial
  · intros; trivial
  · intros; trivial
  · intros; trivial
  · intros; trivial
  · intros; trivial

/-- C8.  Attach-once-at-lowest-unset-frame: (1) every `EvalError`
(including `NonConstantExpressionError`) that exits `evalConstantExpr`
carries an expression reference — the frame at the smallest enclosing
expression has attached its node, because low-level errors are raised
unset and the first enclosing catch frame sets them; and (2) a catch
frame's set-if-unset transformation leaves an error that already carries
an expression completely unchanged, so no outer frame ever overwrites the
attached innermost expression. -/
theorem evalConstantExpr_error_attachment :
    (∀ (e : Expression) (err : Err), evalConstantExpr e = .error err →
        isEvalErrorKind err = true → (exprOf err).isSome = true) ∧
    (∀ (n : Expression) (err : Err), (exprOf err).isSome = true →
        attachIfUnset n err = err) :=
  ⟨evalConstantExpr_error_has_expr, attachIfUnset_preserves⟩

/-- C8 witness: the failing expression `!1 + 2` exits with an expression
attached (part 1 applied at that node), and the set-if-unset frame
preserves an already-attached error (part 2 at a concrete error). -/
theorem evalConstantExpr_error_attachment_witness :
    (exprOf (Err.evalErr false ("Expected " ++ str (.integer 1) ++ " to be boolean")
      (some (.unaryOperation "!" (.literal "number" "1" "" none))))).isSome = true ∧
    attachIfUnset .otherExpression
        (.evalErr false "m" (some (.unaryOperation "!" (.literal "number" "1" "" none)))) =
      .evalErr false "m" (some (.unaryOperation "!" (.literal "number" "1" "" none))) :=
  ⟨evalConstantExpr_error_attachment.1
      (.binaryOperation "+" (.unaryOperation "!" (.literal "number" "1" "" none))
        (.literal "number" "2" "" none))
      (Err.evalErr false ("Expected " ++ str (.integer 1) ++ " to be boolean")
        (some (.unaryOperation "!" (.literal "number" "1" "" none))))
      (by simp [evalConstantExpr, evalLiteral, evalUnary, evalBinary, isConstant,
        evalLiteralImpl, evalUnaryImpl, parseDec, parseUnsigned, parseDigits,
        parseSignedNat, digitVal, stripUnderscores, Dec.normFin, stripTens,
        Dec.isInt, Dec.toIntVal, attachAlways, attachIfUnset, Bind.bind,
        Except.bind])
      rfl,
   evalConstantExpr_error_attachment.2 .otherExpression
      (.evalErr false "m" (some (.unaryOperation "!" (.literal "number" "1" "" none))))
      rfl⟩
